import Mathlib

/-!
Verification development for the image transformation proxy
(`img.monica-dev.com`): a shallow embedding of the single Hono request
handler (`app.get("*")`), its URL validation, cache-key construction,
origin fetch, format selection, optimizer invocation, and the
`app.onError` / `reportToDiscord` error path, together with theorems
about the claims of the specification.

The embedding follows the latest revision of the source file (the one
with phase markers and `reportToDiscord`); external collaborators
(the JS `URL` parser, `parseInt`, the edge cache, `fetch`,
`optimizeImage`) are modelled as explicit functions or oracles.
-/

namespace ImgProxy

/-! ## JavaScript numeric and string primitives -/

/-- A JavaScript number as produced by `parseInt`: either `NaN` or an
integer value. -/
inductive JsNum where
  | nan : JsNum
  | int (n : Int) : JsNum
deriving DecidableEq, Repr

/-- Digit test for a radix of 10 or 16, as `parseInt` uses. -/
def isRadixDigit (base : Nat) (c : Char) : Bool :=
  if base == 16 then
    c.isDigit || (('a' ≤ c && c ≤ 'f') || ('A' ≤ c && c ≤ 'F'))
  else
    c.isDigit

/-- Value of a single radix digit. -/
def radixDigitVal (c : Char) : Nat :=
  if c.isDigit then c.toNat - '0'.toNat
  else if 'a' ≤ c && c ≤ 'f' then c.toNat - 'a'.toNat + 10
  else c.toNat - 'A'.toNat + 10

/-- Accumulate the value of a digit list in the given base. -/
def digitsToNat (base : Nat) (cs : List Char) : Nat :=
  cs.foldl (fun acc c => acc * base + radixDigitVal c) 0

/-- Strip one optional leading sign, returning the sign factor and
the remaining characters. -/
def stripSign : List Char → Int × List Char
  | '-' :: rest => ((-1 : Int), rest)
  | '+' :: rest => ((1 : Int), rest)
  | cs => ((1 : Int), cs)

/-- Detect an optional `0x`/`0X` hexadecimal prefix, returning the
radix and the remaining characters. -/
def detectRadix : List Char → Nat × List Char
  | '0' :: 'x' :: rest => (16, rest)
  | '0' :: 'X' :: rest => (16, rest)
  | cs => (10, cs)

/-- Model of JavaScript `parseInt(s)` (radix argument omitted): skip
leading whitespace, read an optional sign, detect a `0x`/`0X` hex
prefix, then take the longest run of digits of the detected radix;
`NaN` when that run is empty. -/
def jsParseInt (s : String) : JsNum :=
  let sc := stripSign (s.data.dropWhile Char.isWhitespace)
  let rc := detectRadix sc.2
  let digits := rc.2.takeWhile (isRadixDigit rc.1)
  if digits.isEmpty then JsNum.nan
  else JsNum.int (sc.1 * (digitsToNat rc.1 digits : Int))

/-- Whether the very first character of a string is a decimal
digit. -/
def startsWithDigit (s : String) : Bool :=
  match s.data with
  | [] => false
  | c :: _ => c.isDigit

/-- Whether a string begins with a digit once optional leading
whitespace and one optional sign are skipped — exactly the strings on
which `parseInt` can find at least one digit to consume. -/
def startsWithNumber (s : String) : Bool :=
  match (stripSign (s.data.dropWhile Char.isWhitespace)).2 with
  | [] => false
  | c :: _ => c.isDigit

/-- JavaScript `Boolean.prototype.toString`. -/
def jsBoolToString (b : Bool) : String :=
  if b then "true" else "false"

/-- Truthiness of an optional JS string (`undefined` and `""` are
falsy). -/
def strTruthy : Option String → Bool
  | none => false
  | some s => !(s == "")

/-! ## The WHATWG `URL` parser (validity only)

Modelled from the behaviour of the JS `new URL(input)` constructor
with no base argument, reduced to what determines whether it throws:
the input must begin with a scheme (an ASCII letter followed by
letters, digits, `+`, `-` or `.`) terminated by `:`; the special
network schemes additionally require a nonempty authority. Percent
encoding, IDNA and port validation are below the granularity the
claims need and are not modelled. -/

/-- Valid first character of a URL scheme. -/
def isSchemeStartChar (c : Char) : Bool := c.isAlpha

/-- Valid subsequent character of a URL scheme. -/
def isSchemeChar (c : Char) : Bool :=
  c.isAlphanum || c == '+' || c == '-' || c == '.'

/-- Split a character list at the first `:`, returning the part before
and after; `none` when there is no colon. -/
def splitAtColon : List Char → Option (List Char × List Char)
  | [] => none
  | c :: rest =>
    if c == ':' then some ([], rest)
    else (splitAtColon rest).map (fun p => (c :: p.1, p.2))

/-- Lower-case an ASCII letter list (scheme comparison is
case-insensitive). -/
def asciiLower (cs : List Char) : List Char :=
  cs.map (fun c => if 'A' ≤ c && c ≤ 'Z' then Char.ofNat (c.toNat + 32) else c)

/-- The special schemes whose URLs require a nonempty host. -/
def hostRequiredSchemes : List (List Char) :=
  ["http".data, "https".data, "ws".data, "wss".data, "ftp".data]

/-- Model of the validity check of `new URL(s)`: `true` iff the
constructor does not throw. -/
def canParseURL (s : String) : Bool :=
  match splitAtColon s.data with
  | none => false
  | some (scheme, rest) =>
    match scheme with
    | [] => false
    | c :: cs =>
      if !(isSchemeStartChar c && cs.all isSchemeChar) then false
      else
        let lscheme := asciiLower (c :: cs)
        if hostRequiredSchemes.contains lscheme then
          -- special scheme: slashes are tolerated/implied, but the
          -- authority must be nonempty
          let afterSlashes := rest.dropWhile (· == '/')
          match afterSlashes with
          | [] => false
          | a :: _ => !(a == '?' || a == '#')
        else
          true

/-- `isValidUrl` from the source: `new URL(url)` inside `try`,
returning `false` exactly when the constructor throws. -/
def isValidUrl (url : String) : Bool := canParseURL url

/-! ## Request URL and query string model

`new URL(c.req.url)` with `searchParams.append` and `toString` is
modelled by a base (scheme, host and path) plus an ordered list of
query parameters; `toString` re-serialises them with `?`, `=` and `&`
exactly when the parameter list is nonempty. -/

/-- A parsed request URL: origin+path plus its query parameters in
order. -/
structure URLModel where
  base : String
  params : List (String × String)
deriving DecidableEq, Repr

/-- Serialise one `key=value` pair. -/
def renderParam (p : String × String) : String := p.1 ++ "=" ++ p.2

/-- Serialise a list of query parameters separated by `&`. -/
def joinParams : List (String × String) → String
  | [] => ""
  | [p] => renderParam p
  | p :: q :: rest => renderParam p ++ "&" ++ joinParams (q :: rest)

/-- `url.toString()`: base alone when there is no query, otherwise
base, `?`, and the joined parameters. -/
def URLModel.render (u : URLModel) : String :=
  if u.params.isEmpty then u.base else u.base ++ "?" ++ joinParams u.params

/-- `url.searchParams.append(k, v)`: appends at the end, keeping
duplicates. -/
def URLModel.appendParam (u : URLModel) (k v : String) : URLModel :=
  { u with params := u.params ++ [(k, v)] }

/-- `c.req.query(name)`: the first value bound to `name`, or
`undefined`. -/
def URLModel.query (u : URLModel) (name : String) : Option String :=
  (u.params.find? (fun p => p.1 == name)).map (·.2)

/-! ## Responses, effects and the pipeline state -/

/-- A response body: text (from `c.text`) or raw bytes. -/
inductive Body where
  | text (s : String) : Body
  | bytes (b : List Nat) : Body
deriving DecidableEq, Repr

/-- A client-visible HTTP response: status, headers, body. -/
structure HResponse where
  status : Nat
  headers : List (String × String)
  body : Body
deriving DecidableEq, Repr

/-- The `Cache-Control` value attached to every produced image
response. -/
def FOREVER_CACHE_CONTROL : String := "public, max-age=31536000, immutable"

/-- Observable side effects of one handler invocation, in program
order. `cachePut` is the write scheduled through
`executionCtx.waitUntil`. -/
inductive Effect where
  | cacheLookup (key : String) : Effect
  | originFetch (url : String) : Effect
  | optimizeCall (width quality : Option JsNum) (format : String) : Effect
  | cachePut (key : String) : Effect
deriving DecidableEq, Repr

/-- Result of one handler invocation: a returned response, or an
exception escaping to `app.onError`. -/
inductive Outcome where
  | response (r : HResponse) : Outcome
  | raise (tag : String) : Outcome
deriving DecidableEq, Repr

/-- The origin server's answer when `fetch` resolves: HTTP-level
success flag, body bytes, and the raw `content-type` header (which may
be absent). -/
structure OriginRes where
  ok : Bool
  body : List Nat
  contentType : Option String
deriving DecidableEq, Repr

/-- External collaborators of one request: the edge cache, the origin
(`none` models a network-level `fetch` rejection), the
`optimizeImage` codec, and the clock (value of the `date` header). -/
structure World where
  cache : String → Option HResponse
  origin : Option OriginRes
  optimize : List Nat → Option JsNum → Option JsNum → String → List Nat
  now : String

/-- `imgRes.headers.get("content-type") || undefined`: an absent or
empty header collapses to `undefined`. -/
def normCT : Option String → Option String
  | none => none
  | some s => if s == "" then none else some s

/-- The pass-through test
`contentType && ["image/svg+xml", "image/gif"].includes(contentType)`. -/
def isPassthrough : Option String → Bool
  | none => false
  | some ct => ct == "image/svg+xml" || ct == "image/gif"

/-- The output-format decision:
`isWebp ? "webp" : contentType === "image/jpeg" ? "jpeg" : "png"`. -/
def selectFormat (isWebp : Bool) (contentType : Option String) : String :=
  if isWebp then "webp"
  else if contentType == some "image/jpeg" then "jpeg"
  else "png"

/-- `width ? parseInt(width) : undefined` (and likewise for quality):
an absent or empty query value stays `undefined`, anything else goes
through `parseInt`. -/
def parseQueryInt : Option String → Option JsNum
  | none => none
  | some s => if s == "" then none else some (jsParseInt s)

/-- The cache key string: the full request URL with the synthetic
`webp` parameter carrying the negotiated boolean appended
(`url.searchParams.append("webp", isWebp.toString())` followed by
`url.toString()`). -/
def cacheKeyStr (reqUrl : URLModel) (isWebp : Bool) : String :=
  (reqUrl.appendParam "webp" (jsBoolToString isWebp)).render

/-- `isWebp = (type === "image/webp")` where `type` is the media type
negotiated by `accepts`. -/
def isWebpOf (negotiated : String) : Bool := negotiated == "image/webp"

/-! ## The request handler

Transcription of the `app.get("*")` handler: `negotiated` is the
media type returned by the `accepts` call, `reqUrl` is the parsed
`c.req.url`, `w` supplies the external collaborators. The returned
list records the side effects in program order. -/

/-- One invocation of the `app.get("*")` handler. -/
def handle (negotiated : String) (reqUrl : URLModel) (w : World) :
    List Effect × Outcome :=
  let isWebp := isWebpOf negotiated
  match reqUrl.query "url" with
  | none => ([], .response ⟨400, [], .text "valid url is required"⟩)
  | some imageUrl =>
    if imageUrl == "" || !(isValidUrl imageUrl) then
      ([], .response ⟨400, [], .text "valid url is required"⟩)
    else
      let key := cacheKeyStr reqUrl isWebp
      match w.cache key with
      | some r => ([.cacheLookup key], .response r)
      | none =>
        let widthInt := parseQueryInt (reqUrl.query "w")
        let qualityInt := parseQueryInt (reqUrl.query "q")
        match w.origin with
        | none =>
          -- `await fetch(imageUrl, ...)` rejected: no catch in the
          -- handler, the exception escapes to `app.onError`
          ([.cacheLookup key, .originFetch imageUrl], .raise "fetch rejected")
        | some res =>
          if !res.ok then
            ([.cacheLookup key, .originFetch imageUrl],
             .response ⟨404, [], .text "image not found"⟩)
          else
            let contentType := normCT res.contentType
            if isPassthrough contentType then
              ([.cacheLookup key, .originFetch imageUrl, .cachePut key],
               .response ⟨200,
                 [("Content-Type", contentType.getD ""),
                  ("Cache-Control", FOREVER_CACHE_CONTROL)],
                 .bytes res.body⟩)
            else
              let format := selectFormat isWebp contentType
              let image := w.optimize res.body widthInt qualityInt format
              ([.cacheLookup key, .originFetch imageUrl,
                .optimizeCall widthInt qualityInt format, .cachePut key],
               .response ⟨200,
                 [("Content-Type", "image/" ++ format),
                  ("date", w.now),
                  ("Cache-Control", FOREVER_CACHE_CONTROL)],
                 .bytes image⟩)

/-! ## The error path -/

/-- Outbound effects of the error reporter. -/
inductive ReportEffect where
  | post (webhookUrl : String) : ReportEffect
deriving DecidableEq, Repr

/-- `reportToDiscord`: skip silently when `DISCORD_WEBHOOK_URL` is
falsy; otherwise one POST, and a thrown
`Error("failed to report error")` when the response is not ok.
Returns the POSTs performed and the escaping exception, if any. -/
def reportToDiscord (webhookUrl : Option String) (deliveryOk : Bool) :
    List ReportEffect × Option String :=
  if !(strTruthy webhookUrl) then ([], none)
  else
    ([.post (webhookUrl.getD "")],
     if deliveryOk then none else some "failed to report error")

/-- `app.onError`: awaits `reportToDiscord`, then returns the generic
500; an exception from the reporter escapes the error handler. -/
def onErrorHandler (webhookUrl : Option String) (deliveryOk : Bool) :
    List ReportEffect × Outcome :=
  match reportToDiscord webhookUrl deliveryOk with
  | (posts, none) =>
    (posts, .response ⟨500, [], .text "internal server error"⟩)
  | (posts, some msg) => (posts, .raise msg)

/-- A whole request through Hono: the handler, and on an escaping
exception the `app.onError` boundary. The final `Outcome.raise` case
models an exception escaping the application entirely. -/
def serve (negotiated : String) (reqUrl : URLModel) (w : World)
    (webhookUrl : Option String) (deliveryOk : Bool) :
    List Effect × List ReportEffect × Outcome :=
  match handle negotiated reqUrl w with
  | (es, .response r) => (es, [], .response r)
  | (es, .raise _) =>
    let (posts, out) := onErrorHandler webhookUrl deliveryOk
    (es, posts, out)

/-! ## Helper lemmas -/

/-- Serialising a parameter list with one appended pair splits into
the serialisation of the prefix (with a separator when nonempty) and
the rendered pair. -/
theorem joinParams_append (ps : List (String × String)) (p : String × String) :
    joinParams (ps ++ [p]) =
      (if ps.isEmpty then "" else joinParams ps ++ "&") ++ renderParam p := by
  induction ps with
  | nil => simp [joinParams, String.empty_append]
  | cons a t ih =>
    cases t with
    | nil => simp [joinParams, String.append_assoc]
    | cons b t2 =>
      have hstep : joinParams ((a :: b :: t2) ++ [p]) =
          renderParam a ++ "&" ++ joinParams ((b :: t2) ++ [p]) := rfl
      rw [hstep, ih]
      simp [joinParams, String.append_assoc]

/-- The rendered cache key in flattened form. -/
theorem cacheKeyStr_eq (u : URLModel) (b : Bool) :
    cacheKeyStr u b =
      u.base ++ "?" ++
        ((if u.params.isEmpty then "" else joinParams u.params ++ "&") ++
          ("webp" ++ "=" ++ jsBoolToString b)) := by
  have hne : ((u.params ++ [("webp", jsBoolToString b)]).isEmpty) = false := by
    cases u.params <;> rfl
  unfold cacheKeyStr URLModel.appendParam URLModel.render
  simp only [hne, Bool.false_eq_true, if_false, joinParams_append, renderParam]

/-- Length of the rendered cache key. -/
theorem cacheKeyStr_length (u : URLModel) (b : Bool) :
    (cacheKeyStr u b).length =
      u.base.length +
        (if u.params.isEmpty then "" else joinParams u.params ++ "&").length +
        6 + (jsBoolToString b).length := by
  rw [cacheKeyStr_eq]
  simp only [String.length_append]
  have h1 : ("?" : String).length = 1 := rfl
  have h2 : ("webp" : String).length = 4 := rfl
  have h3 : ("=" : String).length = 1 := rfl
  omega

/-- The two format variants of one request URL always render to
distinct cache keys (their lengths differ by one). -/
theorem cacheKeyStr_true_ne_false (u : URLModel) :
    cacheKeyStr u true ≠ cacheKeyStr u false := by
  intro h
  have hlen := congrArg String.length h
  rw [cacheKeyStr_length, cacheKeyStr_length] at hlen
  have h4 : (jsBoolToString true).length = 4 := rfl
  have h5 : (jsBoolToString false).length = 5 := rfl
  omega

/-- When the first remaining character is not a decimal digit (or no
character remains), no hexadecimal prefix is detected. -/
theorem detectRadix_eq_of_head_not_digit (cs : List Char)
    (h : (cs.head?.all (fun c => !c.isDigit)) = true) :
    detectRadix cs = (10, cs) := by
  unfold detectRadix
  split
  · simp_all
  · simp_all
  · rfl

/-- `parseInt` yields `NaN` on every string with no digit after the
optional whitespace and sign. -/
theorem jsParseInt_nan_of_not_startsWithNumber (s : String)
    (h : startsWithNumber s = false) : jsParseInt s = JsNum.nan := by
  unfold startsWithNumber at h
  unfold jsParseInt
  cases hcs1 : (stripSign (s.data.dropWhile Char.isWhitespace)).2 with
  | nil => simp [hcs1, detectRadix]
  | cons c rest =>
    rw [hcs1] at h
    simp only at h
    have hd : detectRadix (c :: rest) = (10, c :: rest) :=
      detectRadix_eq_of_head_not_digit _ (by simp [h])
    simp [hcs1, hd, List.takeWhile_cons, isRadixDigit, h]

/-! ## Concrete fixtures -/

/-- A request URL carrying one valid source-image parameter. -/
def exReqUrl : URLModel :=
  ⟨"https://img.example/", [("url", "https://example.com/a.png")]⟩

/-- A successful PNG origin response. -/
def exOrigin : OriginRes := ⟨true, [1, 2, 3], some "image/png"⟩

/-- A world with an empty cache and a healthy PNG origin. -/
def exWorld : World :=
  { cache := fun _ => none
    origin := some exOrigin
    optimize := fun b _ _ _ => b
    now := "Sun, 12 Oct 2025 00:00:00 GMT" }

/-- A world whose origin fetch rejects at the network level. -/
def exWorldNetFail : World := { exWorld with origin := none }

/-- A world whose origin serves a GIF. -/
def exWorldGif : World :=
  { exWorld with origin := some ⟨true, [7, 7], some "image/gif"⟩ }

/-- A world whose origin answers with a non-success status. -/
def exWorldNotOk : World :=
  { exWorld with origin := some ⟨false, [], none⟩ }

/-- The stored artifact used by the cache-hit fixture. -/
def exStored : HResponse := ⟨200, [("X-Kind", "stored")], Body.bytes [5]⟩

/-- A world whose cache holds `exStored` under the webp-variant key of
`exReqUrl`. -/
def exWorldHit : World :=
  { exWorld with
    cache := fun k =>
      if k = "https://img.example/?url=https://example.com/a.png&webp=true"
      then some exStored else none }

/-- A request URL with an empty `w` and a non-numeric `q`. -/
def exReqUrlWQ : URLModel :=
  ⟨"https://img.example/",
   [("url", "https://example.com/a.png"), ("w", ""), ("q", "abc")]⟩

/-- A request URL whose `w` is the negative number `-3`. -/
def exReqUrlW3 : URLModel :=
  ⟨"https://img.example/",
   [("url", "https://example.com/a.png"), ("w", "-3")]⟩

/-- A request URL whose source parameter uses the `mailto` scheme. -/
def exReqUrlMailto : URLModel :=
  ⟨"https://img.example/", [("url", "mailto:a@b")]⟩

/-- A request URL whose source parameter is a scheme-less relative
path. -/
def exReqUrlRel : URLModel :=
  ⟨"https://img.example/", [("url", "/path/img.png")]⟩

/-! ## Claims -/

/-- C1: for every successfully fetched source image that is not
special-cased, the output format is webp when the negotiated
modern-format flag is true, else jpeg when the source content type is
exactly `image/jpeg`, else png (also for a missing content type); and
every `image/svg+xml` or `image/gif` source bypasses transformation,
returning the original bytes with only the original content type and
the forever cache-control header, regardless of negotiation. -/
theorem claim_C1_format_decision (neg : String) (u : URLModel) (w : World)
    (iu : String) (res : OriginRes)
    (hq : u.query "url" = some iu) (hne : iu ≠ "") (hv : isValidUrl iu = true)
    (hc : w.cache (cacheKeyStr u (isWebpOf neg)) = none)
    (ho : w.origin = some res) (hok : res.ok = true) :
    (∀ ct : String, normCT res.contentType = some ct →
      ct = "image/svg+xml" ∨ ct = "image/gif" →
      handle neg u w =
        ([Effect.cacheLookup (cacheKeyStr u (isWebpOf neg)), Effect.originFetch iu,
          Effect.cachePut (cacheKeyStr u (isWebpOf neg))],
         Outcome.response
          ⟨200, [("Content-Type", ct), ("Cache-Control", FOREVER_CACHE_CONTROL)],
           Body.bytes res.body⟩))
    ∧ (isPassthrough (normCT res.contentType) = false →
        (handle neg u w).2 = Outcome.response
          ⟨200,
           [("Content-Type",
             "image/" ++ selectFormat (isWebpOf neg) (normCT res.contentType)),
            ("date", w.now), ("Cache-Control", FOREVER_CACHE_CONTROL)],
           Body.bytes (w.optimize res.body (parseQueryInt (u.query "w"))
             (parseQueryInt (u.query "q"))
             (selectFormat (isWebpOf neg) (normCT res.contentType)))⟩)
    ∧ (∀ (b : Bool) (ct : Option String),
        selectFormat b ct =
          if b then "webp" else if ct = some "image/jpeg" then "jpeg" else "png") := by
  refine ⟨?_, ?_, ?_⟩
  · intro ct hct hpt
    have hpt3 : isPassthrough (some ct) = true := by
      rcases hpt with h | h <;> subst h <;> decide
    simp [handle, hq, hne, hv, hc, ho, hok, hct, hpt3]
  · intro hpt
    simp [handle, hq, hne, hv, hc, ho, hok, hpt]
  · intro b ct
    by_cases hb : b <;> by_cases hct : ct = some "image/jpeg" <;>
      simp [selectFormat, hb, hct]

/-- Witness for C1 at concrete inputs: a webp-negotiated PNG source is
re-encoded to webp, and a GIF source passes through untouched. -/
theorem claim_C1_witness :
    (handle "image/webp" exReqUrl exWorld).2 = Outcome.response
      ⟨200,
       [("Content-Type", "image/webp"),
        ("date", "Sun, 12 Oct 2025 00:00:00 GMT"),
        ("Cache-Control", FOREVER_CACHE_CONTROL)],
       Body.bytes [1, 2, 3]⟩
    ∧ handle "image/webp" exReqUrl exWorldGif =
      ([Effect.cacheLookup (cacheKeyStr exReqUrl true),
        Effect.originFetch "https://example.com/a.png",
        Effect.cachePut (cacheKeyStr exReqUrl true)],
       Outcome.response
        ⟨200, [("Content-Type", "image/gif"), ("Cache-Control", FOREVER_CACHE_CONTROL)],
         Body.bytes [7, 7]⟩) := by
  constructor
  · have h := (claim_C1_format_decision "image/webp" exReqUrl exWorld
      "https://example.com/a.png" exOrigin (by decide) (by decide) (by decide)
      rfl rfl (by decide)).2.1 (by decide)
    simpa using h
  · have h := (claim_C1_format_decision "image/webp" exReqUrl exWorldGif
      "https://example.com/a.png" ⟨true, [7, 7], some "image/gif"⟩ (by decide)
      (by decide) (by decide) rfl rfl (by decide)).1 "image/gif" (by decide)
      (Or.inr rfl)
    simpa using h

/-- C3: the cache key is always the full request URL with the one
synthetic `webp` parameter carrying the negotiated boolean appended,
and the two format variants of any one request URL render to distinct
key strings, so a webp and a non-webp variant never share a cache
entry. -/
theorem claim_C3_cache_key_isolation :
    (∀ u : URLModel, cacheKeyStr u true ≠ cacheKeyStr u false)
    ∧ (∀ (u : URLModel) (b : Bool),
        cacheKeyStr u b = (u.appendParam "webp" (jsBoolToString b)).render)
    ∧ (∀ (neg : String) (u : URLModel) (w : World) (k : String),
        Effect.cacheLookup k ∈ (handle neg u w).1 ∨
          Effect.cachePut k ∈ (handle neg u w).1 →
        k = cacheKeyStr u (isWebpOf neg)) := by
  refine ⟨cacheKeyStr_true_ne_false, fun u b => rfl, ?_⟩
  intro neg u w k h
  rcases h with h | h <;>
  · unfold handle at h
    repeat' split at h
    all_goals (rcases hcache : w.cache (cacheKeyStr u (isWebpOf neg)) with _ | r <;>
      simp [hcache] at h)
    all_goals (try split at h)
    all_goals simp_all

/-- Witness for C3 at a concrete request URL: the two variant keys
differ, and the key used by a concrete handler run is the constructed
one. -/
theorem claim_C3_witness :
    cacheKeyStr exReqUrl true ≠ cacheKeyStr exReqUrl false
    ∧ "https://img.example/?url=https://example.com/a.png&webp=true" =
        cacheKeyStr exReqUrl (isWebpOf "image/webp") := by
  refine ⟨claim_C3_cache_key_isolation.1 exReqUrl, ?_⟩
  exact claim_C3_cache_key_isolation.2.2 "image/webp" exReqUrl exWorld _
    (Or.inl (by decide))

/-- C4: the cache lookup comes before any origin fetch (whenever an
origin fetch appears in the effect trace, the very first effect is the
lookup of the constructed key), and a cache hit returns the stored
response verbatim with no fetch, transformation or cache write. -/
theorem claim_C4_cache_lookup_first (neg : String) (u : URLModel) (w : World) :
    (∀ url0 : String, Effect.originFetch url0 ∈ (handle neg u w).1 →
      (handle neg u w).1.head? =
        some (Effect.cacheLookup (cacheKeyStr u (isWebpOf neg))))
    ∧ (∀ (iu : String) (r : HResponse),
        u.query "url" = some iu → iu ≠ "" → isValidUrl iu = true →
        w.cache (cacheKeyStr u (isWebpOf neg)) = some r →
        handle neg u w =
          ([Effect.cacheLookup (cacheKeyStr u (isWebpOf neg))],
           Outcome.response r)) := by
  constructor
  · intro url0 h
    unfold handle at h ⊢
    repeat' split at h
    all_goals (rcases hcache : w.cache (cacheKeyStr u (isWebpOf neg)) with _ | r <;>
      simp_all)
    all_goals (try split at h)
    all_goals simp_all
  · intro iu r hq hne hv hhit
    simp [handle, hq, hne, hv, hhit]

/-- Witness for C4 at concrete inputs: a cache hit is returned
verbatim with a one-element trace, and on a miss the trace starts with
the lookup. -/
theorem claim_C4_witness :
    handle "image/webp" exReqUrl exWorldHit =
      ([Effect.cacheLookup (cacheKeyStr exReqUrl true)], Outcome.response exStored)
    ∧ (handle "image/webp" exReqUrl exWorld).1.head? =
        some (Effect.cacheLookup (cacheKeyStr exReqUrl true)) := by
  constructor
  · have h := (claim_C4_cache_lookup_first "image/webp" exReqUrl exWorldHit).2
      "https://example.com/a.png" exStored (by decide) (by decide) (by decide)
      (by decide)
    simpa using h
  · have h := (claim_C4_cache_lookup_first "image/webp" exReqUrl exWorld).1
      "https://example.com/a.png" (by decide)
    simpa using h

/-- C5: a missing, empty or unparsable `url` query parameter yields
status 400 with body exactly "valid url is required", and the effect
trace is empty — no cache lookup, origin fetch or transformation
happens for such a request. -/
theorem claim_C5_invalid_url_rejection (neg : String) (u : URLModel) (w : World) :
    (u.query "url" = none →
      handle neg u w =
        ([], Outcome.response ⟨400, [], Body.text "valid url is required"⟩))
    ∧ (∀ iu : String, u.query "url" = some iu →
        iu = "" ∨ isValidUrl iu = false →
        handle neg u w =
          ([], Outcome.response ⟨400, [], Body.text "valid url is required"⟩)) := by
  constructor
  · intro hq
    simp [handle, hq]
  · intro iu hq hbad
    rcases hbad with h | h
    · subst h
      simp [handle, hq]
    · simp [handle, hq, h]

/-- Witness for C5 at concrete inputs: a request with no `url`
parameter and one with a non-URL value both get the bare 400. -/
theorem claim_C5_witness :
    handle "image/webp" ⟨"https://img.example/", []⟩ exWorld =
      ([], Outcome.response ⟨400, [], Body.text "valid url is required"⟩)
    ∧ handle "image/webp" ⟨"https://img.example/", [("url", "not a url")]⟩ exWorld =
      ([], Outcome.response ⟨400, [], Body.text "valid url is required"⟩) := by
  constructor
  · exact (claim_C5_invalid_url_rejection "image/webp"
      ⟨"https://img.example/", []⟩ exWorld).1 (by decide)
  · exact (claim_C5_invalid_url_rejection "image/webp"
      ⟨"https://img.example/", [("url", "not a url")]⟩ exWorld).2
      "not a url" (by decide) (Or.inr (by decide))

/-- C6: the derived "wants modern format" boolean is true exactly when
the negotiated media type is `image/webp`; the wildcard outcomes and
the `identity` default all yield false. -/
theorem claim_C6_webp_negotiation :
    (∀ t : String, isWebpOf t = true ↔ t = "image/webp")
    ∧ isWebpOf "*/*" = false
    ∧ isWebpOf "image/*" = false
    ∧ isWebpOf "identity" = false := by
  refine ⟨fun t => ?_, by decide, by decide, by decide⟩
  simp [isWebpOf]

/-- Counterexample to C2: on a network-level fetch rejection the
client does not get the 404 "image not found" — the exception escapes
to the top-level error handler, which reports to the configured
webhook and answers 500. -/
theorem claim_C2_counterexample :
    (serve "identity" exReqUrl exWorldNetFail (some "https://hooks.example/h") true).2.2 ≠
      Outcome.response ⟨404, [], Body.text "image not found"⟩
    ∧ (serve "identity" exReqUrl exWorldNetFail (some "https://hooks.example/h") true).2.1 =
      [ReportEffect.post "https://hooks.example/h"]
    ∧ (serve "identity" exReqUrl exWorldNetFail (some "https://hooks.example/h") true).2.2 =
      Outcome.response ⟨500, [], Body.text "internal server error"⟩ := by
  decide

/-- C2 as amended: a non-success HTTP status from the origin yields
status 404 with body "image not found" and triggers neither the
transformation nor the error reporter; a network-level fetch failure
instead raises out of the handler and is handled by the top-level
error boundary (generic 500 and, when configured, a report). -/
theorem claim_C2_amended_origin_failure (neg : String) (u : URLModel)
    (w : World) (wh : Option String) (d : Bool) (iu : String)
    (hq : u.query "url" = some iu) (hne : iu ≠ "") (hv : isValidUrl iu = true)
    (hc : w.cache (cacheKeyStr u (isWebpOf neg)) = none) :
    (∀ res : OriginRes, w.origin = some res → res.ok = false →
      serve neg u w wh d =
        ([Effect.cacheLookup (cacheKeyStr u (isWebpOf neg)), Effect.originFetch iu],
         [], Outcome.response ⟨404, [], Body.text "image not found"⟩))
    ∧ (w.origin = none →
        handle neg u w =
          ([Effect.cacheLookup (cacheKeyStr u (isWebpOf neg)), Effect.originFetch iu],
           Outcome.raise "fetch rejected")
        ∧ serve neg u w wh d =
          ([Effect.cacheLookup (cacheKeyStr u (isWebpOf neg)), Effect.originFetch iu],
           (onErrorHandler wh d).1, (onErrorHandler wh d).2)) := by
  constructor
  · intro res ho hnok
    simp [serve, handle, hq, hne, hv, hc, ho, hnok]
  · intro ho
    have hh : handle neg u w =
        ([Effect.cacheLookup (cacheKeyStr u (isWebpOf neg)), Effect.originFetch iu],
         Outcome.raise "fetch rejected") := by
      simp [handle, hq, hne, hv, hc, ho]
    exact ⟨hh, by simp [serve, hh]⟩

/-- Witness for C2 (amended) at concrete inputs: a 404 origin status
gives the uniform 404 with no report, and a network failure routes
through the error boundary. -/
theorem claim_C2_witness :
    serve "identity" exReqUrl exWorldNotOk (some "https://hooks.example/h") true =
      ([Effect.cacheLookup (cacheKeyStr exReqUrl false),
        Effect.originFetch "https://example.com/a.png"],
       [], Outcome.response ⟨404, [], Body.text "image not found"⟩)
    ∧ handle "identity" exReqUrl exWorldNetFail =
      ([Effect.cacheLookup (cacheKeyStr exReqUrl false),
        Effect.originFetch "https://example.com/a.png"],
       Outcome.raise "fetch rejected") := by
  constructor
  · have h := (claim_C2_amended_origin_failure "identity" exReqUrl exWorldNotOk
      (some "https://hooks.example/h") true "https://example.com/a.png"
      (by decide) (by decide) (by decide) rfl).1 ⟨false, [], none⟩ rfl rfl
    simpa using h
  · have h := ((claim_C2_amended_origin_failure "identity" exReqUrl exWorldNetFail
      (some "https://hooks.example/h") true "https://example.com/a.png"
      (by decide) (by decide) (by decide) rfl).2 rfl).1
    simpa using h

/-- Counterexample to C7: when the notification delivery fails, the
error handler does not produce the generic 500 — `reportToDiscord`
throws and the exception escapes the error boundary. -/
theorem claim_C7_counterexample :
    onErrorHandler (some "https://hooks.example/h") false =
      ([ReportEffect.post "https://hooks.example/h"],
       Outcome.raise "failed to report error")
    ∧ (onErrorHandler (some "https://hooks.example/h") false).2 ≠
      Outcome.response ⟨500, [], Body.text "internal server error"⟩ := by
  decide

/-- C7 as amended: an unhandled pipeline exception yields the generic
500 "internal server error" with no diagnostic detail whenever the
notification delivery succeeds or no endpoint is configured; a
delivery failure is not retried (exactly one POST is made) but raises
a secondary exception that escapes the error handler instead of the
generic 500 being returned by it. -/
theorem claim_C7_amended_error_boundary (wh : Option String) (d : Bool) :
    (strTruthy wh = false →
      onErrorHandler wh d =
        ([], Outcome.response ⟨500, [], Body.text "internal server error"⟩))
    ∧ (d = true →
        (onErrorHandler wh d).2 =
          Outcome.response ⟨500, [], Body.text "internal server error"⟩)
    ∧ (∀ s : String, wh = some s → strTruthy wh = true → d = false →
        onErrorHandler wh d =
          ([ReportEffect.post s], Outcome.raise "failed to report error")) := by
  refine ⟨?_, ?_, ?_⟩
  · intro hfalsy
    simp [onErrorHandler, reportToDiscord, hfalsy]
  · intro hd
    subst hd
    by_cases hfalsy : strTruthy wh = true <;>
      simp [onErrorHandler, reportToDiscord, hfalsy]
  · intro s hs htruthy hd
    subst hs hd
    simp [onErrorHandler, reportToDiscord, htruthy]

/-- Witness for C7 (amended) at concrete inputs: successful delivery
gives the generic 500; failed delivery makes one POST and raises. -/
theorem claim_C7_witness :
    (onErrorHandler (some "https://hooks.example/h") true).2 =
      Outcome.response ⟨500, [], Body.text "internal server error"⟩
    ∧ onErrorHandler (some "https://hooks.example/h") false =
      ([ReportEffect.post "https://hooks.example/h"],
       Outcome.raise "failed to report error") := by
  constructor
  · exact (claim_C7_amended_error_boundary (some "https://hooks.example/h")
      true).2.1 rfl
  · exact (claim_C7_amended_error_boundary (some "https://hooks.example/h")
      false).2.2 "https://hooks.example/h" rfl (by decide) rfl

/-- C8: when no notification endpoint is configured, an unhandled
pipeline exception leads to no outbound POST at all and the client
still receives the 500 "internal server error". -/
theorem claim_C8_no_webhook_silent_skip (neg : String) (u : URLModel)
    (w : World) (d : Bool) (es : List Effect) (tag : String)
    (hraise : handle neg u w = (es, Outcome.raise tag)) :
    serve neg u w none d =
      (es, [], Outcome.response ⟨500, [], Body.text "internal server error"⟩) := by
  simp [serve, hraise, onErrorHandler, reportToDiscord, strTruthy]

/-- Witness for C8: the network-failure fixture with no webhook
configured makes no POST and returns the 500. -/
theorem claim_C8_witness :
    serve "identity" exReqUrl exWorldNetFail none true =
      ([Effect.cacheLookup (cacheKeyStr exReqUrl false),
        Effect.originFetch "https://example.com/a.png"],
       [], Outcome.response ⟨500, [], Body.text "internal server error"⟩) :=
  claim_C8_no_webhook_silent_skip "identity" exReqUrl exWorldNetFail true
    [Effect.cacheLookup (cacheKeyStr exReqUrl false),
     Effect.originFetch "https://example.com/a.png"]
    "fetch rejected" (by simp [handle, exWorldNetFail, exWorld]; decide)

/-- C9: URL validation accepts exactly what the URL parser accepts,
with no scheme restriction — `mailto:` and `data:` URLs proceed to the
origin fetch, while every scheme-less string (no colon anywhere, such
as a relative path) is rejected with the 400. -/
theorem claim_C9_scheme_agnostic_validation (neg : String) (u : URLModel)
    (w : World) :
    (∀ iu : String, u.query "url" = some iu → iu ≠ "" →
      canParseURL iu = true →
      w.cache (cacheKeyStr u (isWebpOf neg)) = none →
      Effect.originFetch iu ∈ (handle neg u w).1)
    ∧ canParseURL "mailto:a@b" = true
    ∧ canParseURL "data:,x" = true
    ∧ canParseURL "/path/img.png" = false
    ∧ (∀ s : String, u.query "url" = some s → splitAtColon s.data = none →
        handle neg u w =
          ([], Outcome.response ⟨400, [], Body.text "valid url is required"⟩)) := by
  refine ⟨?_, by decide, by decide, by decide, ?_⟩
  · intro iu hq hne hv hc
    rcases ho : w.origin with _ | res
    · simp [handle, hq, hne, isValidUrl, hv, hc, ho]
    · rcases hok : res.ok
      · simp [handle, hq, hne, isValidUrl, hv, hc, ho, hok]
      · by_cases hpt : isPassthrough (normCT res.contentType) = true <;>
          simp [handle, hq, hne, isValidUrl, hv, hc, ho, hok, hpt]
  · intro s hq hcolon
    have hval : isValidUrl s = false := by
      simp [isValidUrl, canParseURL, hcolon]
    simp [handle, hq, hval]

/-- Witness for C9 at concrete inputs: a `mailto:` source reaches the
origin fetch and a relative path gets the 400. -/
theorem claim_C9_witness :
    Effect.originFetch "mailto:a@b" ∈ (handle "identity" exReqUrlMailto exWorld).1
    ∧ handle "identity" exReqUrlRel exWorld =
      ([], Outcome.response ⟨400, [], Body.text "valid url is required"⟩) := by
  constructor
  · exact (claim_C9_scheme_agnostic_validation "identity" exReqUrlMailto exWorld).1
      "mailto:a@b" (by decide) (by decide) (by decide) rfl
  · exact (claim_C9_scheme_agnostic_validation "identity" exReqUrlRel exWorld).2.2.2.2
      "/path/img.png" (by decide) (by decide)

/-- Counterexample to C10: `"-3"` is non-empty and does not start with
a digit, yet `parseInt` yields `-3`, not `NaN`, and the pipeline
passes `-3` (not `NaN`) to the transformation. -/
theorem claim_C10_counterexample :
    "-3" ≠ "" ∧ startsWithDigit "-3" = false
    ∧ jsParseInt "-3" = JsNum.int (-3)
    ∧ jsParseInt "-3" ≠ JsNum.nan
    ∧ Effect.optimizeCall (some (JsNum.int (-3))) none "png" ∈
        (handle "identity" exReqUrlW3 exWorld).1 := by
  decide

/-- C10 as amended: an absent or empty `w` (resp. `q`) parameter makes
the transformation receive an undefined width (resp. quality); a
non-empty value with no digit after optional whitespace and an
optional sign parses to `NaN`, and `NaN` — not undefined — is what the
transformation call receives. -/
theorem claim_C10_amended_dimension_parsing (neg : String) (u : URLModel)
    (w : World) (iu : String) (res : OriginRes)
    (hq : u.query "url" = some iu) (hne : iu ≠ "") (hv : isValidUrl iu = true)
    (hc : w.cache (cacheKeyStr u (isWebpOf neg)) = none)
    (ho : w.origin = some res) (hok : res.ok = true)
    (hpt : isPassthrough (normCT res.contentType) = false) :
    Effect.optimizeCall (parseQueryInt (u.query "w")) (parseQueryInt (u.query "q"))
        (selectFormat (isWebpOf neg) (normCT res.contentType)) ∈
      (handle neg u w).1
    ∧ (∀ o : Option String, o = none ∨ o = some "" → parseQueryInt o = none)
    ∧ (∀ s : String, s ≠ "" → startsWithNumber s = false →
        parseQueryInt (some s) = some JsNum.nan) := by
  refine ⟨?_, ?_, ?_⟩
  · simp [handle, hq, hne, hv, hc, ho, hok, hpt]
  · intro o hcase
    rcases hcase with h | h <;> subst h <;> rfl
  · intro s hne2 hnum
    simp [parseQueryInt, hne2, jsParseInt_nan_of_not_startsWithNumber s hnum]

/-- Witness for C10 (amended) at concrete inputs: an empty `w` stays
undefined while `q=abc` arrives as `NaN` at the transformation
call. -/
theorem claim_C10_witness :
    Effect.optimizeCall none (some JsNum.nan) "png" ∈
      (handle "identity" exReqUrlWQ exWorld).1
    ∧ parseQueryInt (some "") = none
    ∧ parseQueryInt (some "abc") = some JsNum.nan := by
  have h := claim_C10_amended_dimension_parsing "identity" exReqUrlWQ exWorld
    "https://example.com/a.png" exOrigin (by decide) (by decide) (by decide)
    rfl rfl rfl (by decide)
  refine ⟨by simpa using h.1, h.2.1 (some "") (Or.inr rfl),
    h.2.2 "abc" (by decide) (by decide)⟩

end ImgProxy
